import Mathlib

/-!
Verification of the QuerySet validation subsystem of the Dawn repository.

The repository sample contains the validation unit tests
(`src/tests/unittests/validation/QuerySetValidationTests.cpp`); the
validator implementation itself (dawn_native's query-set factory, encoder
validator and submission validator) is not part of the sample, so the
definitions below are modelled from the specification's description of
those components and checked against the behaviours the tests exercise.
-/

namespace DawnQuerySet

/-- Modelled from the spec: `QueryType` is a tagged variant with three
recognized cases; an unrecognized numeric value (the raw interface accepts
arbitrary 32-bit values, e.g. `0xFFFFFFFF`) is a distinct invalid case that
never matches any of the three. -/
inductive QueryType where
  | occlusion
  | pipelineStatistics
  | timestamp
  | unknown (v : Nat)
deriving DecidableEq, Repr

/-- Modelled from the spec: `PipelineStatisticName` has exactly five
recognized cases; unrecognized numeric values are invalid. -/
inductive PipelineStatisticName where
  | vertexShaderInvocations
  | clipperInvocations
  | clipperPrimitivesOut
  | fragmentShaderInvocations
  | computeShaderInvocations
  | unknown (v : Nat)
deriving DecidableEq, Repr

/-- A `QueryType` value is recognized when it is one of the three named cases. -/
def QueryType.recognized : QueryType → Bool
  | .unknown _ => false
  | _ => true

/-- A `PipelineStatisticName` value is recognized when it is one of the five
named cases. -/
def PipelineStatisticName.recognized : PipelineStatisticName → Bool
  | .unknown _ => false
  | _ => true

/-- Modelled from the spec: a device holds an identity and an immutable
capability registry, a set of string tags fixed at device construction
(`CreateDeviceFromAdapter(adapter, enabledCapabilities)` in the tests). -/
structure Device where
  id : Nat
  capabilities : List String
deriving DecidableEq, Repr

/-- Capability Registry lookup: `has(tag)`, no failure modes. -/
def Device.has (d : Device) (tag : String) : Bool :=
  d.capabilities.contains tag

/-- Modelled from the spec: the QuerySet descriptor — a type, an unsigned
count (zero permitted), and an ordered, possibly empty statistics list. -/
structure QuerySetDescriptor where
  type : QueryType
  count : Nat
  pipelineStatistics : List PipelineStatisticName
deriving DecidableEq, Repr

/-- Modelled from the spec: a QuerySet holds an immutable snapshot of the
descriptor plus the identity of the owning device, and a mutable
`destroyed` flag, initially false. -/
structure QuerySet where
  deviceId : Nat
  type : QueryType
  count : Nat
  pipelineStatistics : List PipelineStatisticName
  destroyed : Bool
deriving DecidableEq, Repr

/-- Creation-time error kinds (spec §7). -/
inductive CreationError where
  | invalidEnum
  | missingCapability
  | extraneousStatistics
  | emptyStatistics
  | duplicateStatistic
deriving DecidableEq, Repr

/-- `hasDuplicate l` is true when some element of `l` equals an earlier
element of `l`. -/
def hasDuplicate : List PipelineStatisticName → Bool
  | [] => false
  | x :: xs => xs.contains x || hasDuplicate xs

/-- Modelled from the spec: the QuerySet Factory,
`create(device, descriptor)`.  The validation steps run in the spec's
order — (1) recognized type, else `InvalidEnum`; (2) type-vs-capability,
else `MissingCapability`; (3) statistics shape by type, else
`ExtraneousStatistics` / `EmptyStatistics`; (4) for `PipelineStatistics`,
recognized elements (else `InvalidEnum`) then no duplicates (else
`DuplicateStatistic`).  Later checks assume earlier ones passed.  On
success, the returned object snapshots the descriptor, binds the creating
device, and starts with `destroyed = false`. -/
def create (d : Device) (desc : QuerySetDescriptor) :
    Except CreationError QuerySet :=
  if ¬ desc.type.recognized then .error .invalidEnum
  else if desc.type = .timestamp ∧ ¬ d.has "timestamp_query" then
    .error .missingCapability
  else if desc.type = .pipelineStatistics ∧ ¬ d.has "pipeline_statistics_query" then
    .error .missingCapability
  else if desc.type ≠ .pipelineStatistics ∧ desc.pipelineStatistics ≠ [] then
    .error .extraneousStatistics
  else if desc.type = .pipelineStatistics ∧ desc.pipelineStatistics = [] then
    .error .emptyStatistics
  else if desc.type = .pipelineStatistics ∧
      desc.pipelineStatistics.any (fun s => !s.recognized) then
    .error .invalidEnum
  else if desc.type = .pipelineStatistics ∧ hasDuplicate desc.pipelineStatistics then
    .error .duplicateStatistic
  else
    .ok { deviceId := d.id, type := desc.type, count := desc.count,
          pipelineStatistics := desc.pipelineStatistics, destroyed := false }

/-- Modelled from the spec: errors surfaced by `create` are also emitted to
the device's error callback; the callback observation for a `create` call
is the error of its return path, if any (spec §7: surfaced by the return
path AND emitted to the callback). -/
def reportedCreationError (d : Device) (desc : QuerySetDescriptor) :
    Option CreationError :=
  match create d desc with
  | .error e => some e
  | .ok _ => none

/-- Modelled from the spec: `destroy()` sets `destroyed = true` and leaves
the descriptor fields intact.  It is total: calling it (again) is never an
error and fires no error callback. -/
def QuerySet.destroy (s : QuerySet) : QuerySet :=
  { s with destroyed := true }

/-- Record/submit-time error kinds (spec §7). -/
inductive ValidationError where
  | crossDeviceUse
  | wrongQueryType
  | indexOutOfRange
  | useAfterDestroy
  | useAfterDestroyAtSubmit
  | useAfterEnd
  | passAlreadyEnded
  | passNotEnded
deriving DecidableEq, Repr

/-- Modelled from the spec: the per-call checks of the Encoder Validator for
`WriteTimestamp(querySet, queryIndex)`, identical for all three recorder
variants; the checks run in order and short-circuit on the first failure:
device match, query type, index bound, liveness. -/
def validateWriteTimestamp (encDeviceId : Nat) (qs : QuerySet)
    (queryIndex : Nat) : Option ValidationError :=
  if qs.deviceId ≠ encDeviceId then some .crossDeviceUse
  else if qs.type ≠ .timestamp then some .wrongQueryType
  else if ¬ queryIndex < qs.count then some .indexOutOfRange
  else if qs.destroyed then some .useAfterDestroy
  else none

/-- Modelled from the spec: a command encoder's recording state — the
device it was created on, the sticky first-error slot, the identities of
the query sets referenced through recorded `WriteTimestamp` calls, and
whether a child pass encoder is currently open. -/
structure EncoderState where
  deviceId : Nat
  firstError : Option ValidationError
  referenced : List Nat
  passOpen : Bool
deriving DecidableEq, Repr

/-- A fresh command encoder on the given device (`CreateCommandEncoder`). -/
def EncoderState.new (deviceId : Nat) : EncoderState :=
  { deviceId := deviceId, firstError := none, referenced := [], passOpen := false }

/-- Latch an error into the first-error slot only if the slot is empty. -/
def EncoderState.latch (enc : EncoderState) (e : Option ValidationError) :
    EncoderState :=
  match enc.firstError with
  | some _ => enc
  | none => { enc with firstError := e }

/-- The operations a client records against an encoder; `writeTimestamp`
is the command-encoder variant; `passWriteTimestamp` is the variant on the
currently open compute or render pass encoder. -/
inductive EncoderStep where
  | writeTimestamp (qsId : Nat) (queryIndex : Nat)
  | beginComputePass
  | beginRenderPass
  | passWriteTimestamp (qsId : Nat) (queryIndex : Nat)
  | endPass
deriving DecidableEq, Repr

/-- Record a `WriteTimestamp` call: validate it against the current state
of the query set (looked up by identity), latch any violation into the
first-error slot, and remember the reference.  Identical logic for all
recorder variants. -/
def recordWriteTimestamp (lookup : Nat → QuerySet) (enc : EncoderState)
    (qsId queryIndex : Nat) : EncoderState :=
  let enc := enc.latch (validateWriteTimestamp enc.deviceId (lookup qsId) queryIndex)
  { enc with referenced := enc.referenced ++ [qsId] }

/-- Modelled from the spec: one recorded client call against the encoder.
A recorded call returns nothing — it only updates the encoder state;
violations are latched into the sticky first-error slot.  Pass-scoped
recording requires the pass to be open; `EndPass` closes it, and further
pass calls are state-machine violations. -/
def step (lookup : Nat → QuerySet) (enc : EncoderState) :
    EncoderStep → EncoderState
  | .writeTimestamp qsId i => recordWriteTimestamp lookup enc qsId i
  | .beginComputePass => { enc with passOpen := true }
  | .beginRenderPass => { enc with passOpen := true }
  | .passWriteTimestamp qsId i =>
      if enc.passOpen then recordWriteTimestamp lookup enc qsId i
      else enc.latch (some .useAfterEnd)
  | .endPass =>
      if enc.passOpen then { enc with passOpen := false }
      else enc.latch (some .passAlreadyEnded)

/-- Run a sequence of recorded calls against an encoder. -/
def run (lookup : Nat → QuerySet) (enc : EncoderState)
    (ops : List EncoderStep) : EncoderState :=
  ops.foldl (step lookup) enc

/-- Modelled from the spec: a command buffer carries the identities of the
query sets it references through `WriteTimestamp` (weak back-references:
identity only, so later `destroy()` on the set is visible at submit). -/
structure CommandBuffer where
  deviceId : Nat
  referencedQuerySets : List Nat
deriving DecidableEq, Repr

/-- Modelled from the spec: `Finish()` on the parent command encoder —
returns the command buffer, or the latched first error if any; all child
passes must have been ended. -/
def finish (enc : EncoderState) : Except ValidationError CommandBuffer :=
  match enc.firstError with
  | some e => .error e
  | none =>
      if enc.passOpen then .error .passNotEnded
      else .ok { deviceId := enc.deviceId, referencedQuerySets := enc.referenced }

/-- Modelled from the spec: a queue belongs to a device (`GetDefaultQueue`). -/
structure Queue where
  deviceId : Nat
deriving DecidableEq, Repr

/-- Modelled from the spec: the Submission Validator's checks for one
command buffer: every referenced query set must be owned by the queue's
device (rechecked defensively), then must still be live — otherwise
`UseAfterDestroyAtSubmit`.  `lookup` gives each query set's current state
at submit time. -/
def validateSubmitOne (queueDeviceId : Nat) (lookup : Nat → QuerySet)
    (cb : CommandBuffer) : Option ValidationError :=
  if cb.referencedQuerySets.any (fun q => (lookup q).deviceId ≠ queueDeviceId) then
    some .crossDeviceUse
  else if cb.referencedQuerySets.any (fun q => (lookup q).destroyed) then
    some .useAfterDestroyAtSubmit
  else none

/-- The observable outcome of a `Submit` call: the work actually enqueued
and the error reported to the device's error callback, if any. -/
structure SubmitOutcome where
  enqueued : List CommandBuffer
  reportedError : Option ValidationError
deriving DecidableEq, Repr

/-- Modelled from the spec: `submit(queue, commandBuffers)` — if any check
fails on any buffer, no work is enqueued and the error is reported to the
device's error callback; otherwise all buffers are enqueued. -/
def submit (q : Queue) (lookup : Nat → QuerySet)
    (cbs : List CommandBuffer) : SubmitOutcome :=
  match cbs.findSome? (validateSubmitOne q.deviceId lookup) with
  | some e => { enqueued := [], reportedError := some e }
  | none => { enqueued := cbs, reportedError := none }

/-- Modelled from the spec: the raw (wire-level) descriptor as built by the
C API: the statistics list is a pointer (`none` models a null pointer left
unset) together with an element count. -/
structure RawQuerySetDescriptor where
  type : QueryType
  count : Nat
  pipelineStatisticsPtr : Option (List PipelineStatisticName)
  pipelineStatisticsCount : Nat
deriving DecidableEq, Repr

/-- Reading `n` statistics entries through the raw pointer.  Reading zero
entries never dereferences the pointer; reading a positive number of
entries through a null pointer, or past the pointee, has no defined result
(`none`). -/
def readStats : Option (List PipelineStatisticName) → Nat →
    Option (List PipelineStatisticName)
  | _, 0 => some []
  | none, _ + 1 => none
  | some l, n + 1 => if n + 1 ≤ l.length then some (l.take (n + 1)) else none

/-- `create` at the raw boundary: materialize the statistics list from the
pointer and count, then run the Factory; `none` when the read itself is
undefined. -/
def createRaw (d : Device) (rd : RawQuerySetDescriptor) :
    Option (Except CreationError QuerySet) :=
  (readStats rd.pipelineStatisticsPtr rd.pipelineStatisticsCount).map
    (fun stats =>
      create d { type := rd.type, count := rd.count, pipelineStatistics := stats })

/-- `create` viewed as a success predicate (did the call return a live
query set rather than an invalid handle?). -/
def createSucceeds (d : Device) (desc : QuerySetDescriptor) : Bool :=
  match create d desc with
  | .ok _ => true
  | .error _ => false

/-! Concrete fixtures mirroring the unit tests: the default device has no
optional capabilities; the two extra devices enable one capability each
(`QuerySetValidationTest::SetUp`). -/

/-- The default test device: no optional capabilities enabled. -/
def defaultDevice : Device := { id := 0, capabilities := [] }

/-- Device created with the `pipeline_statistics_query` capability. -/
def deviceWithPipelineStatistics : Device :=
  { id := 1, capabilities := ["pipeline_statistics_query"] }

/-- Device created with the `timestamp_query` capability. -/
def deviceWithTimestamp : Device :=
  { id := 2, capabilities := ["timestamp_query"] }

/-- The timestamp query set of the WriteTimestamp tests: type `Timestamp`,
count 2, created on `deviceWithTimestamp`. -/
def timestampQuerySet : QuerySet :=
  { deviceId := 2, type := .timestamp, count := 2,
    pipelineStatistics := [], destroyed := false }

/-- The occlusion query set of the WriteTimestamp tests: type `Occlusion`,
count 2, created on `deviceWithTimestamp`. -/
def occlusionQuerySet : QuerySet :=
  { deviceId := 2, type := .occlusion, count := 2,
    pipelineStatistics := [], destroyed := false }

/-- Query-set store for the recording scenarios: identity 0 is the
timestamp set, every other identity the occlusion set. -/
def lookupEx : Nat → QuerySet
  | 0 => timestampQuerySet
  | _ + 1 => occlusionQuerySet

/-- The same store after `timestampQuerySet.Destroy()` was called (between
the encoder's `Finish` and the queue's `Submit` in the tests). -/
def lookupDestroyed : Nat → QuerySet
  | 0 => timestampQuerySet.destroy
  | n + 1 => lookupEx (n + 1)

/-! ### Helper lemmas -/

/-- Recording on an encoder whose first-error slot is empty stores exactly
the validator's verdict. -/
theorem recordWriteTimestamp_firstError (lookup : Nat → QuerySet)
    (enc : EncoderState) (qsId i : Nat) (h : enc.firstError = none) :
    (recordWriteTimestamp lookup enc qsId i).firstError
      = validateWriteTimestamp enc.deviceId (lookup qsId) i := by
  simp [recordWriteTimestamp, EncoderState.latch, h]

/-- Latching never changes the encoder's device. -/
theorem latch_deviceId (enc : EncoderState) (e : Option ValidationError) :
    (enc.latch e).deviceId = enc.deviceId := by
  unfold EncoderState.latch
  cases enc.firstError <;> simp

/-- Latching onto an occupied first-error slot is a no-op. -/
theorem latch_of_some (enc : EncoderState) (e : ValidationError)
    (x : Option ValidationError) (h : enc.firstError = some e) :
    enc.latch x = enc := by
  unfold EncoderState.latch
  rw [h]

/-- A single recorded call never changes the encoder's device. -/
theorem step_deviceId (lookup : Nat → QuerySet) (enc : EncoderState)
    (op : EncoderStep) : (step lookup enc op).deviceId = enc.deviceId := by
  cases op <;>
    simp only [step, recordWriteTimestamp] <;>
    (try split) <;> simp [latch_deviceId]

/-- A single recorded call never clears a latched first error. -/
theorem step_preserves_firstError (lookup : Nat → QuerySet)
    (enc : EncoderState) (op : EncoderStep) (e : ValidationError)
    (h : enc.firstError = some e) :
    (step lookup enc op).firstError = some e := by
  cases op <;>
    simp only [step, recordWriteTimestamp] <;>
    (try split) <;> simp [latch_of_some enc e _ h, h]

/-! ### Claim theorems -/

/-- C1: every `WriteTimestamp(querySet, queryIndex)` recorded on any of the
three recorder variants (command encoder, compute pass encoder, render pass
encoder) is validated by the same four checks, applied in order — device
match (`CrossDeviceUse`), type `Timestamp` (`WrongQueryType`), index bound
(`IndexOutOfRange`), liveness (`UseAfterDestroy`) — short-circuiting on the
first failure; the verdict is latched into the encoder's empty first-error
slot and surfaced by the parent encoder's `Finish()`, not by the
`WriteTimestamp` call itself (which only updates encoder state). -/
theorem writeTimestamp_four_ordered_checks (lookup : Nat → QuerySet)
    (enc : EncoderState) (qsId i : Nat) (hempty : enc.firstError = none) :
    ((step lookup enc (.writeTimestamp qsId i)).firstError
        = validateWriteTimestamp enc.deviceId (lookup qsId) i)
  ∧ ((run lookup enc [.beginComputePass, .passWriteTimestamp qsId i]).firstError
        = validateWriteTimestamp enc.deviceId (lookup qsId) i)
  ∧ ((run lookup enc [.beginRenderPass, .passWriteTimestamp qsId i]).firstError
        = validateWriteTimestamp enc.deviceId (lookup qsId) i)
  ∧ (∀ qs : QuerySet,
      (qs.deviceId ≠ enc.deviceId →
          validateWriteTimestamp enc.deviceId qs i = some .crossDeviceUse)
      ∧ (qs.deviceId = enc.deviceId → qs.type ≠ .timestamp →
          validateWriteTimestamp enc.deviceId qs i = some .wrongQueryType)
      ∧ (qs.deviceId = enc.deviceId → qs.type = .timestamp → ¬ i < qs.count →
          validateWriteTimestamp enc.deviceId qs i = some .indexOutOfRange)
      ∧ (qs.deviceId = enc.deviceId → qs.type = .timestamp → i < qs.count →
          qs.destroyed = true →
          validateWriteTimestamp enc.deviceId qs i = some .useAfterDestroy)
      ∧ (qs.deviceId = enc.deviceId → qs.type = .timestamp → i < qs.count →
          qs.destroyed = false →
          validateWriteTimestamp enc.deviceId qs i = none))
  ∧ (∀ e, (step lookup enc (.writeTimestamp qsId i)).firstError = some e →
        finish (step lookup enc (.writeTimestamp qsId i)) = .error e) := by
  refine ⟨?_, ?_, ?_, ?_, ?_⟩
  · simp [step, recordWriteTimestamp, EncoderState.latch, hempty]
  · simp [run, step, recordWriteTimestamp, EncoderState.latch, hempty]
  · simp [run, step, recordWriteTimestamp, EncoderState.latch, hempty]
  · intro qs
    refine ⟨?_, ?_, ?_, ?_, ?_⟩ <;>
      · intros
        simp_all [validateWriteTimestamp]
  · intro e he
    simp [finish, he]

/-- C1 witness: the command-encoder variant at a concrete input. -/
theorem writeTimestamp_four_ordered_checks_witness :
    (step lookupEx (EncoderState.new 2) (.writeTimestamp 0 0)).firstError
      = validateWriteTimestamp (EncoderState.new 2).deviceId (lookupEx 0) 0 :=
  (writeTimestamp_four_ordered_checks lookupEx (EncoderState.new 2) 0 0 rfl).1

/-- C8: `destroy()` is idempotent — a second `destroy()` leaves the query
set in the same observable state as the first (`destroyed = true`, all
descriptor fields retained); `destroy` is a total operation with no error
result, so the second call is not an error and reports nothing. -/
theorem destroy_idempotent (s : QuerySet) :
    QuerySet.destroy (QuerySet.destroy s) = QuerySet.destroy s
  ∧ (QuerySet.destroy s).destroyed = true
  ∧ (QuerySet.destroy s).deviceId = s.deviceId
  ∧ (QuerySet.destroy s).type = s.type
  ∧ (QuerySet.destroy s).count = s.count
  ∧ (QuerySet.destroy s).pipelineStatistics = s.pipelineStatistics := by
  simp [QuerySet.destroy]

/-- C2: every query set returned by a successful `create(d, D)` satisfies
the data-model invariants — (I1) it is bound to the creating device (and
the binding, like all descriptor fields, is untouched by the only mutator,
`destroy`); (I2) when its type is `PipelineStatistics` its statistics list
is non-empty, all recognized, duplicate-free; (I3) otherwise the list is
empty; (I4) its type is capability-compatible with `d`; (I5) `destroyed`
starts false and the only transition, `destroy`, moves it monotonically to
true. -/
theorem create_ok_satisfies_invariants (d : Device)
    (desc : QuerySetDescriptor) (qs : QuerySet)
    (h : create d desc = .ok qs) :
    qs.deviceId = d.id
  ∧ (qs.type = .pipelineStatistics →
      qs.pipelineStatistics ≠ []
      ∧ (∀ s ∈ qs.pipelineStatistics, s.recognized = true)
      ∧ hasDuplicate qs.pipelineStatistics = false)
  ∧ (qs.type ≠ .pipelineStatistics → qs.pipelineStatistics = [])
  ∧ (qs.type = .pipelineStatistics → d.has "pipeline_statistics_query" = true)
  ∧ (qs.type = .timestamp → d.has "timestamp_query" = true)
  ∧ qs.destroyed = false
  ∧ (∀ s : QuerySet, (QuerySet.destroy s).destroyed = true)
  ∧ (QuerySet.destroy qs).deviceId = qs.deviceId
  ∧ (QuerySet.destroy qs).type = qs.type := by
  simp only [create] at h
  split_ifs at h with h1 h2 h3 h4 h5 h6 h7
  injection h with h
  subst h
  refine ⟨rfl, ?_, ?_, ?_, ?_, rfl, fun s => rfl, rfl, rfl⟩
  · intro ht
    refine ⟨fun hemp => h5 ⟨ht, hemp⟩, ?_, ?_⟩
    · intro s hs
      have hany : ¬ (desc.pipelineStatistics.any fun s => !s.recognized) = true :=
        fun hc => h6 ⟨ht, hc⟩
      simp only [List.any_eq_true, not_exists, not_and] at hany
      have := hany s hs
      simpa using this
    · have : ¬ hasDuplicate desc.pipelineStatistics = true :=
        fun hc => h7 ⟨ht, hc⟩
      simpa using this
  · intro hne
    by_contra hne2
    exact h4 ⟨hne, hne2⟩
  · intro ht
    by_contra hcap
    exact h3 ⟨ht, by simpa using hcap⟩
  · intro ht
    by_contra hcap
    exact h2 ⟨ht, by simpa using hcap⟩

/-- C2 witness: the timestamp query set created on `deviceWithTimestamp`
in the tests satisfies the invariants. -/
theorem create_ok_satisfies_invariants_witness :
    timestampQuerySet.deviceId = deviceWithTimestamp.id
  ∧ (timestampQuerySet.type = .pipelineStatistics →
      timestampQuerySet.pipelineStatistics ≠ []
      ∧ (∀ s ∈ timestampQuerySet.pipelineStatistics, s.recognized = true)
      ∧ hasDuplicate timestampQuerySet.pipelineStatistics = false)
  ∧ (timestampQuerySet.type ≠ .pipelineStatistics →
      timestampQuerySet.pipelineStatistics = [])
  ∧ (timestampQuerySet.type = .pipelineStatistics →
      deviceWithTimestamp.has "pipeline_statistics_query" = true)
  ∧ (timestampQuerySet.type = .timestamp →
      deviceWithTimestamp.has "timestamp_query" = true)
  ∧ timestampQuerySet.destroyed = false
  ∧ (∀ s : QuerySet, (QuerySet.destroy s).destroyed = true)
  ∧ (QuerySet.destroy timestampQuerySet).deviceId = timestampQuerySet.deviceId
  ∧ (QuerySet.destroy timestampQuerySet).type = timestampQuerySet.type :=
  create_ok_satisfies_invariants deviceWithTimestamp
    { type := .timestamp, count := 2, pipelineStatistics := [] }
    timestampQuerySet rfl

/-- C3: creation is capability-gated by type — `Timestamp` on a device
lacking `timestamp_query` and `PipelineStatistics` on a device lacking
`pipeline_statistics_query` fail with `MissingCapability` (invalid handle
on the return path and the error emitted to the device callback), while
`Occlusion` never fails for lack of a capability on any device. -/
theorem create_capability_gating (d : Device) (desc : QuerySetDescriptor) :
    (desc.type = .timestamp → d.has "timestamp_query" = false →
      create d desc = .error .missingCapability
      ∧ reportedCreationError d desc = some .missingCapability)
  ∧ (desc.type = .pipelineStatistics →
      d.has "pipeline_statistics_query" = false →
      create d desc = .error .missingCapability
      ∧ reportedCreationError d desc = some .missingCapability)
  ∧ (desc.type = .occlusion →
      create d desc ≠ .error .missingCapability) := by
  obtain ⟨t, c, l⟩ := desc
  refine ⟨?_, ?_, ?_⟩ <;> intro ht <;> subst ht
  · intro hcap
    have hc : create d ⟨.timestamp, c, l⟩ = .error .missingCapability := by
      simp [create, QueryType.recognized, hcap]
    exact ⟨hc, by simp [reportedCreationError, hc]⟩
  · intro hcap
    have hc : create d ⟨.pipelineStatistics, c, l⟩
        = .error .missingCapability := by
      simp [create, QueryType.recognized, hcap]
    exact ⟨hc, by simp [reportedCreationError, hc]⟩
  · by_cases hl : l = [] <;>
      simp [create, QueryType.recognized, hl]

/-- C5 counterexample: a `Timestamp` descriptor with a non-empty
statistics list on the capability-less default device fails with
`MissingCapability`, not `ExtraneousStatistics` — the capability check
runs before the statistics-shape check. -/
theorem shape_after_capability_cex :
    create defaultDevice
      { type := .timestamp, count := 1,
        pipelineStatistics := [.vertexShaderInvocations] }
      = .error .missingCapability
    ∧ create defaultDevice
        { type := .timestamp, count := 1,
          pipelineStatistics := [.vertexShaderInvocations] }
      ≠ .error .extraneousStatistics := by
  have h : create defaultDevice
      { type := .timestamp, count := 1,
        pipelineStatistics := [.vertexShaderInvocations] }
      = .error .missingCapability := rfl
  refine ⟨h, fun hc => ?_⟩
  rw [h] at hc
  exact CreationError.noConfusion (Except.error.inj hc)

/-- C5 (amended): once the device holds the capability the descriptor's
type requires (none for `Occlusion`), the statistics-list shape is checked
against the type — a non-empty list with type `Occlusion` or `Timestamp`
fails with `ExtraneousStatistics`, and an empty list with type
`PipelineStatistics` fails with `EmptyStatistics`. -/
theorem create_statistics_shape (d : Device) (desc : QuerySetDescriptor) :
    (desc.type = .occlusion → desc.pipelineStatistics ≠ [] →
      create d desc = .error .extraneousStatistics)
  ∧ (desc.type = .timestamp → d.has "timestamp_query" = true →
      desc.pipelineStatistics ≠ [] →
      create d desc = .error .extraneousStatistics)
  ∧ (desc.type = .pipelineStatistics →
      d.has "pipeline_statistics_query" = true →
      desc.pipelineStatistics = [] →
      create d desc = .error .emptyStatistics) := by
  obtain ⟨t, c, l⟩ := desc
  refine ⟨?_, ?_, ?_⟩ <;> intro ht <;> subst ht
  · intro hne
    have hne' : l ≠ [] := hne
    simp [create, QueryType.recognized, hne']
  · intro hcap hne
    have hne' : l ≠ [] := hne
    simp [create, QueryType.recognized, hcap, hne']
  · intro hcap hemp
    have hemp' : l = [] := hemp
    subst hemp'
    simp [create, QueryType.recognized, hcap]

/-- C5 witness: `Occlusion` with a non-empty statistics list on the
default device fails with `ExtraneousStatistics`. -/
theorem create_statistics_shape_witness :
    create defaultDevice
      { type := .occlusion, count := 1,
        pipelineStatistics := [.vertexShaderInvocations] }
      = .error .extraneousStatistics :=
  (create_statistics_shape defaultDevice
      { type := .occlusion, count := 1,
        pipelineStatistics := [.vertexShaderInvocations] }).1
    rfl (by simp)

/-- Shared helper: a successful `create` pins down the returned object and
implies every guarding condition was passed. -/
theorem create_ok_fields (d : Device) (desc : QuerySetDescriptor)
    (qs : QuerySet) (h : create d desc = .ok qs) :
    qs = { deviceId := d.id, type := desc.type, count := desc.count,
           pipelineStatistics := desc.pipelineStatistics, destroyed := false }
  ∧ desc.type.recognized = true
  ∧ ¬(desc.type = .timestamp ∧ ¬ d.has "timestamp_query" = true)
  ∧ ¬(desc.type = .pipelineStatistics ∧
        ¬ d.has "pipeline_statistics_query" = true)
  ∧ ¬(desc.type ≠ .pipelineStatistics ∧ desc.pipelineStatistics ≠ [])
  ∧ ¬(desc.type = .pipelineStatistics ∧ desc.pipelineStatistics = [])
  ∧ ¬(desc.type = .pipelineStatistics ∧
        desc.pipelineStatistics.any (fun s => !s.recognized) = true)
  ∧ ¬(desc.type = .pipelineStatistics ∧
        hasDuplicate desc.pipelineStatistics = true) := by
  simp only [create] at h
  split_ifs at h with h1 h2 h3 h4 h5 h6 h7
  injection h with h
  refine ⟨h.symm, by simpa using h1, h2, h3, h4, h5, ?_, ?_⟩
  · intro hc
    exact h6 ⟨hc.1, by simpa using hc.2⟩
  · intro hc
    exact h7 ⟨hc.1, by simpa using hc.2⟩

/-- C6: unrecognized numeric enum values are rejected at creation — an
unrecognized `type` always fails with `InvalidEnum`; a `PipelineStatistics`
descriptor whose list contains an unrecognized statistic always fails
(with `InvalidEnum` once the device holds `pipeline_statistics_query`, the
check that precedes it); and no query set holding an unrecognized value is
ever produced, so unknown values are never routed further into the
system. -/
theorem create_rejects_unknown_enums (d : Device)
    (desc : QuerySetDescriptor) (v : Nat) :
    (desc.type = .unknown v → create d desc = .error .invalidEnum)
  ∧ (desc.type = .pipelineStatistics →
      PipelineStatisticName.unknown v ∈ desc.pipelineStatistics →
      (∃ e, create d desc = .error e)
      ∧ (d.has "pipeline_statistics_query" = true →
          create d desc = .error .invalidEnum))
  ∧ (∀ qs, create d desc = .ok qs →
      qs.type.recognized = true
      ∧ ∀ s ∈ qs.pipelineStatistics, s.recognized = true) := by
  refine ⟨?_, ?_, ?_⟩
  · intro ht
    simp [create, ht, QueryType.recognized]
  · intro ht hmem
    have hne : desc.pipelineStatistics ≠ [] := by
      intro hemp
      rw [hemp] at hmem
      exact absurd hmem (List.not_mem_nil _)
    have hany : desc.pipelineStatistics.any (fun s => !s.recognized) = true := by
      rw [List.any_eq_true]
      exact ⟨.unknown v, hmem, by simp [PipelineStatisticName.recognized]⟩
    obtain ⟨t, c, l⟩ := desc
    simp only at ht hne hany
    subst ht
    by_cases hcap : d.has "pipeline_statistics_query"
    · refine ⟨⟨.invalidEnum, ?_⟩, fun _ => ?_⟩ <;>
        simp [create, QueryType.recognized, hcap, hne, hany]
    · refine ⟨⟨.missingCapability, ?_⟩, fun hc => absurd hc ?_⟩ <;>
        simp [create, QueryType.recognized, hcap]
  · intro qs h
    obtain ⟨hqs, hrec, -, -, hc4, -, hc6, -⟩ := create_ok_fields d desc qs h
    subst hqs
    refine ⟨hrec, ?_⟩
    by_cases ht : desc.type = .pipelineStatistics
    · intro s hs
      have : ¬ desc.pipelineStatistics.any (fun s => !s.recognized) = true :=
        fun hc => hc6 ⟨ht, hc⟩
      simp only [List.any_eq_true, not_exists, not_and] at this
      simpa using this s hs
    · have : desc.pipelineStatistics = [] := by
        by_contra hne
        exact hc4 ⟨ht, hne⟩
      simp [this]

/-- C6 witness: the test's `0xFFFFFFFF` query type is rejected with
`InvalidEnum` on the default device. -/
theorem create_rejects_unknown_enums_witness :
    create defaultDevice
      { type := .unknown 0xFFFFFFFF, count := 1, pipelineStatistics := [] }
      = .error .invalidEnum :=
  (create_rejects_unknown_enums defaultDevice
      { type := .unknown 0xFFFFFFFF, count := 1, pipelineStatistics := [] }
      0xFFFFFFFF).1 rfl

/-- `hasDuplicate` is false exactly on duplicate-free lists. -/
theorem hasDuplicate_eq_false_iff (l : List PipelineStatisticName) :
    hasDuplicate l = false ↔ l.Nodup := by
  induction l with
  | nil => simp [hasDuplicate]
  | cons x xs ih =>
      simp [hasDuplicate, List.nodup_cons, ih, List.contains, List.elem_iff,
        Bool.or_eq_false_iff, and_comm]

/-- Duplicate detection is permutation-invariant. -/
theorem hasDuplicate_perm {l l' : List PipelineStatisticName}
    (hp : l.Perm l') : hasDuplicate l = hasDuplicate l' := by
  cases hb : hasDuplicate l' with
  | false =>
      exact (hasDuplicate_eq_false_iff l).2
        (hp.nodup_iff.2 ((hasDuplicate_eq_false_iff l').1 hb))
  | true =>
      cases hb' : hasDuplicate l with
      | true => rfl
      | false =>
          rw [(hasDuplicate_eq_false_iff l').2
            (hp.nodup_iff.1 ((hasDuplicate_eq_false_iff l).1 hb'))] at hb
          exact Bool.noConfusion hb

/-- Characterization of creation success by the descriptor's contents. -/
theorem createSucceeds_eq_true_iff (d : Device) (desc : QuerySetDescriptor) :
    createSucceeds d desc = true ↔
      desc.type.recognized = true
      ∧ (desc.type = .timestamp → d.has "timestamp_query" = true)
      ∧ (desc.type = .pipelineStatistics →
          d.has "pipeline_statistics_query" = true)
      ∧ (desc.type ≠ .pipelineStatistics → desc.pipelineStatistics = [])
      ∧ (desc.type = .pipelineStatistics →
          desc.pipelineStatistics ≠ []
          ∧ desc.pipelineStatistics.any (fun s => !s.recognized) = false
          ∧ hasDuplicate desc.pipelineStatistics = false) := by
  constructor
  · intro hs
    obtain ⟨qs, hok⟩ : ∃ qs, create d desc = .ok qs := by
      cases hcr : create d desc with
      | ok qs => exact ⟨qs, rfl⟩
      | error e =>
          unfold createSucceeds at hs
          rw [hcr] at hs
          exact Bool.noConfusion hs
    obtain ⟨-, hrec, hc2, hc3, hc4, hc5, hc6, hc7⟩ :=
      create_ok_fields d desc qs hok
    refine ⟨hrec, ?_, ?_, ?_, ?_⟩
    · intro ht
      by_contra hc
      exact hc2 ⟨ht, by simpa using hc⟩
    · intro ht
      by_contra hc
      exact hc3 ⟨ht, by simpa using hc⟩
    · intro ht
      by_contra hc
      exact hc4 ⟨ht, hc⟩
    · intro ht
      refine ⟨fun hemp => hc5 ⟨ht, hemp⟩, ?_, ?_⟩
      · have : ¬ desc.pipelineStatistics.any (fun s => !s.recognized) = true :=
          fun hc => hc6 ⟨ht, hc⟩
        simpa using this
      · have : ¬ hasDuplicate desc.pipelineStatistics = true :=
          fun hc => hc7 ⟨ht, hc⟩
        simpa using this
  · rintro ⟨hr, hts, hps, hsh, hst⟩
    have h1' : ¬¬ desc.type.recognized = true := by simpa using hr
    have h2' : ¬(desc.type = .timestamp ∧ ¬ d.has "timestamp_query" = true) := by
      rintro ⟨ht, hc⟩
      exact hc (hts ht)
    have h3' : ¬(desc.type = .pipelineStatistics ∧
        ¬ d.has "pipeline_statistics_query" = true) := by
      rintro ⟨ht, hc⟩
      exact hc (hps ht)
    have h4' : ¬(desc.type ≠ .pipelineStatistics ∧
        desc.pipelineStatistics ≠ []) := by
      rintro ⟨hne, hl⟩
      exact hl (hsh hne)
    have h5' : ¬(desc.type = .pipelineStatistics ∧
        desc.pipelineStatistics = []) := by
      rintro ⟨ht, hemp⟩
      exact (hst ht).1 hemp
    have h6' : ¬(desc.type = .pipelineStatistics ∧
        desc.pipelineStatistics.any (fun s => !s.recognized) = true) := by
      rintro ⟨ht, hc⟩
      rw [(hst ht).2.1] at hc
      exact Bool.noConfusion hc
    have h7' : ¬(desc.type = .pipelineStatistics ∧
        hasDuplicate desc.pipelineStatistics = true) := by
      rintro ⟨ht, hc⟩
      rw [(hst ht).2.2] at hc
      exact Bool.noConfusion hc
    unfold createSucceeds create
    rw [if_neg h1', if_neg h2', if_neg h3', if_neg h4', if_neg h5',
      if_neg h6', if_neg h7']

/-- Creation success depends on the statistics list only up to
permutation. -/
theorem createSucceeds_perm (d : Device) (t : QueryType) (c : Nat)
    {l l' : List PipelineStatisticName} (hp : l.Perm l') :
    createSucceeds d { type := t, count := c, pipelineStatistics := l }
      = createSucceeds d { type := t, count := c, pipelineStatistics := l' } := by
  have hnil : (l = []) ↔ (l' = []) :=
    ⟨fun h => ((h ▸ hp : List.Perm [] l').symm.eq_nil),
     fun h => ((h ▸ hp.symm : List.Perm [] l).symm.eq_nil)⟩
  have hany : l.any (fun s => !s.recognized)
      = l'.any (fun s => !s.recognized) := by
    rw [Bool.eq_iff_iff, List.any_eq_true, List.any_eq_true]
    exact ⟨fun ⟨x, hx, hpx⟩ => ⟨x, hp.mem_iff.1 hx, hpx⟩,
      fun ⟨x, hx, hpx⟩ => ⟨x, hp.mem_iff.2 hx, hpx⟩⟩
  have hdup := hasDuplicate_perm hp
  rw [Bool.eq_iff_iff, createSucceeds_eq_true_iff, createSucceeds_eq_true_iff]
  constructor <;> rintro ⟨hr, hts, hps, hsh, hst⟩ <;>
    refine ⟨hr, hts, hps, ?_, ?_⟩
  · exact fun hne => hnil.1 (hsh hne)
  · intro ht
    obtain ⟨hne, ha, hd⟩ := hst ht
    exact ⟨fun h => hne (hnil.2 h), by rw [← hany]; exact ha,
      by rw [← hdup]; exact hd⟩
  · exact fun hne => hnil.2 (hsh hne)
  · intro ht
    obtain ⟨hne, ha, hd⟩ := hst ht
    exact ⟨fun h => hne (hnil.1 h), by rw [hany]; exact ha,
      by rw [hdup]; exact hd⟩

/-- C7 counterexample: a list with an element equal to an earlier element
need not fail with `DuplicateStatistic` — duplicate unrecognized values
are rejected with `InvalidEnum`, because element recognition is checked
before duplicates. -/
theorem duplicate_after_recognition_cex :
    hasDuplicate [.unknown 5, .unknown 5] = true
    ∧ create deviceWithPipelineStatistics
        { type := .pipelineStatistics, count := 1,
          pipelineStatistics := [.unknown 5, .unknown 5] }
        = .error .invalidEnum
    ∧ create deviceWithPipelineStatistics
        { type := .pipelineStatistics, count := 1,
          pipelineStatistics := [.unknown 5, .unknown 5] }
        ≠ .error .duplicateStatistic := by
  have h : create deviceWithPipelineStatistics
      { type := .pipelineStatistics, count := 1,
        pipelineStatistics := [.unknown 5, .unknown 5] }
      = .error .invalidEnum := rfl
  refine ⟨by decide, h, fun hc => ?_⟩
  rw [h] at hc
  exact CreationError.noConfusion (Except.error.inj hc)

/-- C7 (amended): the statistics list is treated as a set — on a device
with `pipeline_statistics_query` and a list of recognized statistics, any
element equal to an earlier element makes `create` fail with
`DuplicateStatistic` (an unrecognized duplicate fails with `InvalidEnum`
first); and for every statistics list and every permutation of it,
creation succeeds with one exactly when it succeeds with the other. -/
theorem create_statistics_set_semantics (d : Device) (t : QueryType)
    (c : Nat) (l l' : List PipelineStatisticName) :
    (d.has "pipeline_statistics_query" = true →
      (∀ s ∈ l, s.recognized = true) →
      hasDuplicate l = true →
      create d { type := .pipelineStatistics, count := c,
                 pipelineStatistics := l }
        = .error .duplicateStatistic)
  ∧ (l.Perm l' →
      createSucceeds d { type := t, count := c, pipelineStatistics := l }
        = createSucceeds d { type := t, count := c, pipelineStatistics := l' })
  ∧ (createSucceeds d { type := t, count := c, pipelineStatistics := l } = true
      ↔ ∃ qs, create d { type := t, count := c, pipelineStatistics := l }
          = .ok qs) := by
  refine ⟨?_, fun hp => createSucceeds_perm d t c hp, ?_⟩
  · intro hcap hrec hdup
    have hne : l ≠ [] := by
      intro h
      subst h
      simp [hasDuplicate] at hdup
    have hany : l.any (fun s => !s.recognized) = false := by
      rw [List.any_eq_false]
      intro x hx
      simp [hrec x hx]
    simp [create, QueryType.recognized, hcap, hne, hany, hdup]
  · constructor
    · intro hs
      cases hcr : create d { type := t, count := c, pipelineStatistics := l } with
      | ok qs => exact ⟨qs, rfl⟩
      | error e =>
          unfold createSucceeds at hs
          rw [hcr] at hs
          exact Bool.noConfusion hs
    · rintro ⟨qs, hqs⟩
      unfold createSucceeds
      rw [hqs]

/-- C7 witness: the test's duplicate `VertexShaderInvocations` list on the
capable device fails with `DuplicateStatistic`. -/
theorem create_statistics_set_semantics_witness :
    create deviceWithPipelineStatistics
      { type := .pipelineStatistics, count := 1,
        pipelineStatistics :=
          [.vertexShaderInvocations, .vertexShaderInvocations] }
      = .error .duplicateStatistic :=
  (create_statistics_set_semantics deviceWithPipelineStatistics
      .pipelineStatistics 1
      [.vertexShaderInvocations, .vertexShaderInvocations] []).1
    (by decide) (by decide) (by decide)

/-- C3 witness: a `Timestamp` descriptor on the capability-less default
device fails with `MissingCapability` on both channels. -/
theorem create_capability_gating_witness :
    create defaultDevice { type := .timestamp, count := 1, pipelineStatistics := [] }
      = .error .missingCapability
    ∧ reportedCreationError defaultDevice
        { type := .timestamp, count := 1, pipelineStatistics := [] }
      = some .missingCapability :=
  (create_capability_gating defaultDevice
      { type := .timestamp, count := 1, pipelineStatistics := [] }).1
    rfl (by decide)

/-- C9: the encoder's first-error slot is sticky — once an error has been
latched, any sequence of subsequently recorded calls (valid or not,
including `EndPass` on an enclosing pass) leaves the slot unchanged, and
the parent encoder's `Finish()` still fails with that first error. -/
theorem first_error_slot_sticky (lookup : Nat → QuerySet)
    (enc : EncoderState) (e : ValidationError) (ops : List EncoderStep)
    (h : enc.firstError = some e) :
    (run lookup enc ops).firstError = some e
  ∧ finish (run lookup enc ops) = .error e := by
  have hrun : (run lookup enc ops).firstError = some e := by
    induction ops generalizing enc with
    | nil => exact h
    | cons op ops ih =>
        exact ih (step lookup enc op)
          (step_preserves_firstError lookup enc op e h)
  exact ⟨hrun, by simp [finish, hrun]⟩

/-- C9 witness: after an out-of-range `WriteTimestamp` on a compute pass,
a later valid write and `EndPass` leave the latched `IndexOutOfRange` in
place and `Finish()` fails with it. -/
theorem first_error_slot_sticky_witness :
    (run lookupEx
        (run lookupEx (EncoderState.new 2)
          [.beginComputePass, .passWriteTimestamp 0 5])
        [.passWriteTimestamp 0 0, .endPass]).firstError
      = some .indexOutOfRange
  ∧ finish (run lookupEx
        (run lookupEx (EncoderState.new 2)
          [.beginComputePass, .passWriteTimestamp 0 5])
        [.passWriteTimestamp 0 0, .endPass])
      = .error .indexOutOfRange :=
  first_error_slot_sticky lookupEx
    (run lookupEx (EncoderState.new 2)
      [.beginComputePass, .passWriteTimestamp 0 5])
    .indexOutOfRange [.passWriteTimestamp 0 0, .endPass] rfl

/-- C4: if a command buffer produced by a successful `Finish` references a
query set through a recorded `WriteTimestamp`, and that set is destroyed
by the time of `Submit` — including when `destroy()` happened after
`Finish` succeeded — then the submit fails with `UseAfterDestroyAtSubmit`,
enqueues no work, and reports the error to the device's callback. -/
theorem submit_fails_on_destroyed_queryset (q : Queue)
    (lookup : Nat → QuerySet) (enc : EncoderState) (cb : CommandBuffer)
    (sId : Nat) (hfin : finish enc = .ok cb)
    (hmem : sId ∈ cb.referencedQuerySets)
    (hdev : ∀ r ∈ cb.referencedQuerySets, (lookup r).deviceId = q.deviceId)
    (hdes : (lookup sId).destroyed = true) :
    submit q lookup [cb]
      = { enqueued := [], reportedError := some .useAfterDestroyAtSubmit } := by
  have htrue : cb.referencedQuerySets.any (fun r => (lookup r).destroyed)
      = true := by
    rw [List.any_eq_true]
    exact ⟨sId, hmem, hdes⟩
  have hv : validateSubmitOne q.deviceId lookup cb
      = some .useAfterDestroyAtSubmit := by
    unfold validateSubmitOne
    rw [if_pos htrue, if_neg ?_]
    rw [List.any_eq_true]
    rintro ⟨x, hx, hpx⟩
    rw [decide_eq_true_eq] at hpx
    exact hpx (hdev x hx)
  simp [submit, hv]

/-- C4 witness: the test scenario — record a timestamp write, `Finish`
successfully, destroy the query set, then submit on the owning device's
queue. -/
theorem submit_fails_on_destroyed_queryset_witness :
    submit { deviceId := 2 } lookupDestroyed
      [{ deviceId := 2, referencedQuerySets := [0] }]
      = { enqueued := [], reportedError := some .useAfterDestroyAtSubmit } :=
  submit_fails_on_destroyed_queryset { deviceId := 2 } lookupDestroyed
    (run lookupEx (EncoderState.new 2) [.writeTimestamp 0 0])
    { deviceId := 2, referencedQuerySets := [0] } 0
    rfl (by decide) (by decide) rfl

/-- C10: a raw descriptor whose statistics pointer is left unset (null)
with count zero is handled exactly as an empty statistics list — the read
is defined without dereferencing the null pointer, creation succeeds for
`Occlusion` (and capability-enabled `Timestamp`) descriptors, and a
`PipelineStatistics` descriptor on a capable device fails with the
empty-list error. -/
theorem null_statistics_pointer_as_empty (d : Device) (t : QueryType)
    (c : Nat) :
    createRaw d { type := t, count := c, pipelineStatisticsPtr := none,
                  pipelineStatisticsCount := 0 }
      = some (create d { type := t, count := c, pipelineStatistics := [] })
  ∧ (t = .occlusion →
      createRaw d { type := t, count := c, pipelineStatisticsPtr := none,
                    pipelineStatisticsCount := 0 }
        = some (.ok { deviceId := d.id, type := t, count := c,
                      pipelineStatistics := [], destroyed := false }))
  ∧ (t = .timestamp → d.has "timestamp_query" = true →
      createRaw d { type := t, count := c, pipelineStatisticsPtr := none,
                    pipelineStatisticsCount := 0 }
        = some (.ok { deviceId := d.id, type := t, count := c,
                      pipelineStatistics := [], destroyed := false }))
  ∧ (t = .pipelineStatistics → d.has "pipeline_statistics_query" = true →
      createRaw d { type := t, count := c, pipelineStatisticsPtr := none,
                    pipelineStatisticsCount := 0 }
        = some (.error .emptyStatistics)) := by
  refine ⟨rfl, ?_, ?_, ?_⟩
  · intro ht
    subst ht
    simp [createRaw, readStats, create, QueryType.recognized]
  · intro ht hcap
    subst ht
    simp [createRaw, readStats, create, QueryType.recognized, hcap]
  · intro ht hcap
    subst ht
    simp [createRaw, readStats, create, QueryType.recognized, hcap]

/-- C10 witness: an `Occlusion` descriptor with a null statistics pointer
on the default device creates successfully. -/
theorem null_statistics_pointer_as_empty_witness :
    createRaw defaultDevice
      { type := .occlusion, count := 1, pipelineStatisticsPtr := none,
        pipelineStatisticsCount := 0 }
      = some (.ok { deviceId := defaultDevice.id, type := .occlusion,
                    count := 1, pipelineStatistics := [],
                    destroyed := false }) :=
  (null_statistics_pointer_as_empty defaultDevice .occlusion 1).2.1 rfl

end DawnQuerySet
